import Mathlib

/-!
Shallow embedding of the reflection pass of the XShaderCompiler front end
(`ReflectionAnalyzer.cpp`), together with the small external interfaces it
uses (constant-expression evaluation, register lookup, string-to-enum
tables), and theorems about the behaviour of that pass.
-/

set_option autoImplicit false

namespace Xsc

/-- Shader pipeline targets. Modelled from the spec: the target set named in
the external interface section; only membership and equality matter here. -/
inductive ShaderTarget where
  | VertexShader
  | TessellationControlShader
  | TessellationEvaluationShader
  | GeometryShader
  | FragmentShader
  | ComputeShader
deriving DecidableEq

/-- Modelled from the spec: the `Variant` tagged result of constant folding.
One of integer, real, boolean, string, or none; `none` represents a value
that could not be folded. Reals are modelled as rationals, since no claim
depends on machine floating-point rounding. -/
inductive Variant where
  | none
  | boolean (b : Bool)
  | int (i : Int)
  | real (r : Rat)
  | str (s : String)
deriving DecidableEq

namespace Variant

/-- Modelled from the spec: every numeric accessor on `none` returns the
zero of its type; a real is truncated toward zero when read as an integer. -/
def ToInt : Variant → Int
  | .none => 0
  | .boolean b => if b then 1 else 0
  | .int i => i
  | .real r => Int.tdiv r.num r.den
  | .str _ => 0

/-- Modelled from the spec: every numeric accessor on `none` returns the
zero of its type. -/
def ToReal : Variant → Rat
  | .none => 0
  | .boolean b => if b then 1 else 0
  | .int i => (i : Rat)
  | .real r => r
  | .str _ => 0

end Variant

/-- Expression nodes, restricted to the shapes the reflection pass inspects
(`As<LiteralExpr>`, `As<ObjectExpr>`, `As<CallExpr>`, `As<CastExpr>`,
`As<InitializerExpr>`); `OtherExpr` stands for every remaining node kind.
For a call expression, `isVectorCtor` records whether the node carries a
type denoter that is a vector type. -/
inductive Expr where
  | LiteralExpr (value : String)
  | ObjectExpr (ident : String)
  | CallExpr (isVectorCtor : Bool) (arguments : List Expr)
  | CastExpr (expr : Expr)
  | InitializerExpr (exprs : List Expr)
  | OtherExpr

/-- Failure modes of the external evaluator: reaching a runtime variable
access (the visitor installs a callback that throws the object expression),
or any rejection by the checks of the evaluator itself. -/
inductive EvalError where
  | varAccess (ident : String)
  | evalError
deriving DecidableEq

/-- Parses a list of decimal digit characters into a number; fails on any
other character. -/
def parseNatAux : List Char → Nat → Option Nat
  | [], acc => some acc
  | c :: cs, acc =>
      if c.isDigit then parseNatAux cs (acc * 10 + (c.toNat - 48)) else Option.none

/-- Splits a character list into the segments between dots. -/
def splitSegs : List Char → List (List Char)
  | [] => [[]]
  | c :: rest =>
      match splitSegs rest with
      | [] => [[]]
      | seg :: segs => if c = '.' then [] :: seg :: segs else (c :: seg) :: segs

/-- Modelled from the spec: turning the text of a literal token into a
numeric `Variant` (an integer for a plain digit string, a real when a
fractional part is present). -/
def parseLiteral (s : String) : Option Variant :=
  match splitSegs s.data with
  | [a] => (parseNatAux a 0).map (fun n => Variant.int (n : Int))
  | [a, b] =>
      match parseNatAux a 0, parseNatAux b 0 with
      | some i, some f =>
          some (Variant.real ((i : Rat) + (f : Rat) / ((10 : Rat) ^ b.length)))
      | _, _ => Option.none
  | _ => Option.none

/-- Modelled from the spec: the external constant-expression evaluator
(`ConstExprEvaluator`, outside the fragment). It folds literals to scalar
variants, folds a cast by folding its inner expression, fails with
`varAccess` when evaluation reaches a runtime variable access (the callback
installed by the reflection pass throws there), and rejects every shape it
cannot fold. -/
def evaluateExpr : Expr → Except EvalError Variant
  | .LiteralExpr v =>
      match parseLiteral v with
      | some w => .ok w
      | Option.none => .error .evalError
  | .ObjectExpr ident => .error (.varAccess ident)
  | .CastExpr e => evaluateExpr e
  | .CallExpr _ _ => .error .evalError
  | .InitializerExpr _ => .error .evalError
  | .OtherExpr => .error .evalError

/-- From the source (`ReflectionAnalyzer::EvaluateConstExpr`): run the
evaluator with a throwing variable-access callback and catch every failure,
returning the empty variant instead. -/
def EvaluateConstExpr (e : Expr) : Variant :=
  match evaluateExpr e with
  | .ok v => v
  | .error _ => Variant.none

/-- From the source (`ReflectionAnalyzer::EvaluateConstExprInt`). -/
def EvaluateConstExprInt (e : Expr) : Int :=
  (EvaluateConstExpr e).ToInt

/-- From the source (`ReflectionAnalyzer::EvaluateConstExprFloat`). -/
def EvaluateConstExprFloat (e : Expr) : Rat :=
  (EvaluateConstExpr e).ToReal

/-! Sampler-state enumerations and their string tables. -/

/-- Modelled from the spec: the sampler filter enumeration (full member list
lives outside the fragment); representative members plus the default. -/
inductive Filter where
  | MinMagMipPoint
  | MinMagMipLinear
  | Anisotropic
deriving DecidableEq

/-- Modelled from the spec: texture address modes; representative members
plus the default. -/
inductive TextureAddressMode where
  | Wrap
  | Mirror
  | Clamp
  | Border
deriving DecidableEq

/-- Modelled from the spec: sampler comparison functions; representative
members plus the default. -/
inductive ComparisonFunc where
  | Never
  | Less
  | Always
deriving DecidableEq

/-- Modelled from the spec: the string-to-enum table backing
`StringToFilter` (outside the fragment); an unrecognized string maps to
nothing, which the source surfaces as a thrown invalid-argument error. -/
def stringToFilter (s : String) : Option Filter :=
  if s = "MIN_MAG_MIP_POINT" then some .MinMagMipPoint
  else if s = "MIN_MAG_MIP_LINEAR" then some .MinMagMipLinear
  else if s = "ANISOTROPIC" then some .Anisotropic
  else Option.none

/-- Modelled from the spec: the string-to-enum table backing
`StringToTexAddressMode` (outside the fragment). -/
def stringToTexAddressMode (s : String) : Option TextureAddressMode :=
  if s = "WRAP" then some .Wrap
  else if s = "MIRROR" then some .Mirror
  else if s = "CLAMP" then some .Clamp
  else if s = "BORDER" then some .Border
  else Option.none

/-- Modelled from the spec: the string-to-enum table backing
`StringToCompareFunc` (outside the fragment). -/
def stringToCompareFunc (s : String) : Option ComparisonFunc :=
  if s = "NEVER" then some .Never
  else if s = "LESS" then some .Less
  else if s = "ALWAYS" then some .Always
  else Option.none

/-- Modelled from the spec: the message carried by the invalid-argument
error thrown for an unrecognized filter string; it names the bad value. -/
def R_InvalidFilterValue (v : String) : String :=
  "invalid sampler filter value " ++ v

/-- Modelled from the spec: message for an unrecognized texture address
mode string; it names the bad value. -/
def R_InvalidTexAddressModeValue (v : String) : String :=
  "invalid texture address mode value " ++ v

/-- Modelled from the spec: message for an unrecognized comparison function
string; it names the bad value. -/
def R_InvalidCompareFuncValue (v : String) : String :=
  "invalid comparison function value " ++ v

/-- Modelled from the spec: message text behind `R_InvalidTypeOrArgCount`. -/
def R_InvalidTypeOrArgCount : String :=
  "invalid type denoter or invalid number of arguments"

/-- Modelled from the spec: message text behind `R_InvalidArgCount`. -/
def R_InvalidArgCount : String :=
  "invalid number of arguments"

/-- Modelled from the spec: message text behind
`R_FailedToInitializeSamplerValue`; it names the targeted value. -/
def R_FailedToInitializeSamplerValue (err val : String) : String :=
  "failed to initialize sampler value " ++ val ++ " (" ++ err ++ ")"

/-! Parsing helpers used for numeric sampler fields. -/

/-- Modelled from the spec: `FromString` into an unsigned integer (the
helper lives outside the fragment); a non-numeric string yields zero. -/
def fromStringUInt (s : String) : Nat :=
  (parseNatAux s.data 0).getD 0

/-- Modelled from the spec: `FromString` into a real; a non-numeric string
yields zero. -/
def fromStringReal (s : String) : Rat :=
  match splitSegs s.data with
  | [a] => ((parseNatAux a 0).getD 0 : Rat)
  | [a, b] =>
      ((parseNatAux a 0).getD 0 : Rat)
        + ((parseNatAux b 0).getD 0 : Rat) / ((10 : Rat) ^ b.length)
  | _ => 0

/-! The abstract syntax tree fragments the reflection pass reads. -/

/-- Modelled from the spec: a target-qualified register assignment — a slot
number tagged with the shader targets it applies to. -/
structure Register where
  targets : List ShaderTarget
  slot : Int
deriving DecidableEq

namespace Register

/-- Modelled from the spec: `Register::GetForTarget` (outside the
fragment) selects from the list the register assignment that applies to the
given target. -/
def GetForTarget (registers : List Register) (target : ShaderTarget) : Option Register :=
  registers.find? (fun r => r.targets.any (fun x => decide (x = target)))

end Register

/-- One value assignment inside a sampler declaration: a field name and the
assigned expression. -/
structure SamplerValue where
  name : String
  value : Expr

/-- Attribute kinds the reflection pass dispatches on; every kind other
than the thread-group-size attribute is ignored. -/
inductive AttributeType where
  | NumThreads
  | Other
deriving DecidableEq

/-- A function attribute: its kind and argument expressions. -/
structure Attribute where
  attributeType : AttributeType
  arguments : List Expr

/-- A variable declaration as read through the entry-point input and output
semantic lists: its source identifier, the canonical name of its semantic
(`Semantic::ToString`), and the numeric semantic index. -/
structure VarDeclData where
  ident : String
  semanticName : String
  semanticIndex : Int
deriving DecidableEq

/-- The fields of the entry-point function declaration the pass reads:
the ordinary and system-value input and output parameter lists, and the
return semantic of the function itself. -/
structure FunctionDeclData where
  inputVarDeclRefs : List VarDeclData
  inputVarDeclRefsSV : List VarDeclData
  outputVarDeclRefs : List VarDeclData
  outputVarDeclRefsSV : List VarDeclData
  semanticIsSystemValue : Bool
  semanticName : String
  semanticIndex : Int
deriving DecidableEq

/-- A single buffer declaration inside a buffer declaration statement. -/
structure BufferDecl where
  reachable : Bool
  ident : String
  slotRegisters : List Register
deriving DecidableEq

/-- Modelled from the spec: buffer kinds, split into texture kinds and the
remaining resource kinds; representative members. -/
inductive BufferType where
  | Buffer
  | StructuredBuffer
  | RWBuffer
  | Texture1D
  | Texture2D
  | Texture3D
deriving DecidableEq

/-- Modelled from the spec: `IsTextureBufferType` (outside the fragment)
holds exactly on the texture kinds. -/
def IsTextureBufferType : BufferType → Bool
  | .Texture1D => true
  | .Texture2D => true
  | .Texture3D => true
  | _ => false

/-- Global statements as dispatched by the visitor: the node kinds the
reflection pass implements, plus a stand-in for every other kind. The
sampler declaration carries its reachability flag even though the visitor
reads only the flags of buffer declarations. -/
inductive Decl where
  | SamplerDecl (reachable : Bool) (ident : String) (samplerValues : List SamplerValue)
  | FunctionDecl (isEntryPoint : Bool) (attribs : List Attribute)
  | UniformBufferDecl (reachable : Bool) (ident : String) (slotRegisters : List Register)
  | BufferDeclStmnt (reachable : Bool) (bufferType : BufferType) (bufferDecls : List BufferDecl)
  | OtherStmnt

/-- The program as read by the pass: global statements, the disabled
(dead-code) branch, and the resolved entry-point reference when present. -/
structure Program where
  globalStmnts : List Decl
  disabledAST : List Decl
  entryPointRef : Option FunctionDeclData

/-! The reflection output aggregate. -/

/-- A name paired with a resolved binding location. -/
structure BindingSlot where
  ident : String
  location : Int
deriving DecidableEq

/-- Compute thread-group dimensions. -/
structure NumThreads where
  x : Int := 0
  y : Int := 0
  z : Int := 0
deriving DecidableEq

/-- A sampler-state snapshot; defaults modelled from the spec (each enum
and numeric field has a defined default, border color defaults to zero). -/
structure SamplerState where
  filter : Filter := .MinMagMipLinear
  addressU : TextureAddressMode := .Clamp
  addressV : TextureAddressMode := .Clamp
  addressW : TextureAddressMode := .Clamp
  mipLODBias : Rat := 0
  maxAnisotropy : Nat := 1
  comparisonFunc : ComparisonFunc := .Never
  borderColor : List Rat := [0, 0, 0, 0]
  minLOD : Rat := 0
  maxLOD : Rat := 0
deriving DecidableEq

/-- Insert-or-overwrite into an association list keyed by name, modelling
assignment through the indexing operator of an ordered map: an existing
entry is replaced in place, a new key is appended. -/
def mapInsert (m : List (String × SamplerState)) (k : String) (v : SamplerState) :
    List (String × SamplerState) :=
  match m with
  | [] => [(k, v)]
  | (k1, v1) :: rest => if k1 = k then (k, v) :: rest else (k1, v1) :: mapInsert rest k v

/-- Lookup in the sampler-state map. -/
def mapLookup (m : List (String × SamplerState)) (k : String) : Option SamplerState :=
  match m with
  | [] => Option.none
  | (k1, v1) :: rest => if k1 = k then some v1 else mapLookup rest k

/-- Number of entries stored under a key. -/
def countKey (m : List (String × SamplerState)) (k : String) : Nat :=
  match m with
  | [] => 0
  | (k1, _) :: rest => (if k1 = k then 1 else 0) + countKey rest k

/-- The `ReflectionData` aggregate written by the pass. -/
structure ReflectionData where
  inputAttributes : List (String × Int) := []
  outputAttributes : List (String × Int) := []
  constantBuffers : List BindingSlot := []
  textures : List BindingSlot := []
  storageBuffers : List BindingSlot := []
  samplerStates : List (String × SamplerState) := []
  numThreads : NumThreads := {}
deriving DecidableEq

/-- The analyzer state threaded through the traversal: the output aggregate
and the report sink holding the warning messages emitted so far. -/
structure RState where
  data : ReflectionData := {}
  warnings : List String := []
deriving DecidableEq

/-- The parameters copied once at the start of `Reflect`: the active shader
target and the warnings-enabled flag. -/
structure Ctx where
  shaderTarget : ShaderTarget
  enableWarnings : Bool

/-- From the source (`ReflectionAnalyzer::Warning`): append the message to
the report sink only when warnings are enabled. -/
def Warning (ctx : Ctx) (st : RState) (msg : String) : RState :=
  if ctx.enableWarnings then { st with warnings := st.warnings ++ [msg] } else st

/-- From the source (`ReflectionAnalyzer::GetBindingPoint`): the slot of
the register assignment for the active target, or -1 when none applies. -/
def GetBindingPoint (ctx : Ctx) (slotRegisters : List Register) : Int :=
  match Register.GetForTarget slotRegisters ctx.shaderTarget with
  | some slotRegister => slotRegister.slot
  | Option.none => -1

/-- From the source (`ReflectionAnalyzer::ReflectSamplerValueFilter`):
map the string through the table; on failure warn and keep the field. -/
def ReflectSamplerValueFilter (ctx : Ctx) (value : String) (filter : Filter) (st : RState) :
    Filter × RState :=
  match stringToFilter value with
  | some f => (f, st)
  | Option.none => (filter, Warning ctx st (R_InvalidFilterValue value))

/-- From the source
(`ReflectionAnalyzer::ReflectSamplerValueTextureAddressMode`). -/
def ReflectSamplerValueTextureAddressMode (ctx : Ctx) (value : String)
    (addressMode : TextureAddressMode) (st : RState) : TextureAddressMode × RState :=
  match stringToTexAddressMode value with
  | some m => (m, st)
  | Option.none => (addressMode, Warning ctx st (R_InvalidTexAddressModeValue value))

/-- From the source
(`ReflectionAnalyzer::ReflectSamplerValueComparisonFunc`). -/
def ReflectSamplerValueComparisonFunc (ctx : Ctx) (value : String)
    (comparisonFunc : ComparisonFunc) (st : RState) : ComparisonFunc × RState :=
  match stringToCompareFunc value with
  | some c => (c, st)
  | Option.none => (comparisonFunc, Warning ctx st (R_InvalidCompareFuncValue value))

/-- From the source (`ReflectionAnalyzer::ReflectSamplerValue`): dispatch
on the shape of the assigned expression first (literal, then identifier),
and only then handle `BorderColor`, which accepts a vector-constructor
call with four arguments, a cast whose folded inner value is broadcast, or
a four-element initializer list; a failing call or initializer shape warns,
every other shape falls through silently. -/
def ReflectSamplerValue (ctx : Ctx) (ast : SamplerValue) (samplerState : SamplerState)
    (st : RState) : SamplerState × RState :=
  match ast.value with
  | .LiteralExpr value =>
      if ast.name = "MipLODBias" then
        ({ samplerState with mipLODBias := fromStringReal value }, st)
      else if ast.name = "MaxAnisotropy" then
        ({ samplerState with maxAnisotropy := fromStringUInt value }, st)
      else if ast.name = "MinLOD" then
        ({ samplerState with minLOD := fromStringReal value }, st)
      else if ast.name = "MaxLOD" then
        ({ samplerState with maxLOD := fromStringReal value }, st)
      else (samplerState, st)
  | .ObjectExpr identV =>
      if ast.name = "Filter" then
        let r := ReflectSamplerValueFilter ctx identV samplerState.filter st
        ({ samplerState with filter := r.1 }, r.2)
      else if ast.name = "AddressU" then
        let r := ReflectSamplerValueTextureAddressMode ctx identV samplerState.addressU st
        ({ samplerState with addressU := r.1 }, r.2)
      else if ast.name = "AddressV" then
        let r := ReflectSamplerValueTextureAddressMode ctx identV samplerState.addressV st
        ({ samplerState with addressV := r.1 }, r.2)
      else if ast.name = "AddressW" then
        let r := ReflectSamplerValueTextureAddressMode ctx identV samplerState.addressW st
        ({ samplerState with addressW := r.1 }, r.2)
      else if ast.name = "ComparisonFunc" then
        let r := ReflectSamplerValueComparisonFunc ctx identV samplerState.comparisonFunc st
        ({ samplerState with comparisonFunc := r.1 }, r.2)
      else (samplerState, st)
  | .CallExpr isVectorCtor arguments =>
      if ast.name = "BorderColor" then
        match isVectorCtor, arguments with
        | true, [a0, a1, a2, a3] =>
            ({ samplerState with borderColor :=
                [EvaluateConstExprFloat a0, EvaluateConstExprFloat a1,
                 EvaluateConstExprFloat a2, EvaluateConstExprFloat a3] }, st)
        | _, _ =>
            (samplerState,
             Warning ctx st (R_FailedToInitializeSamplerValue R_InvalidTypeOrArgCount "BorderColor"))
      else (samplerState, st)
  | .CastExpr e =>
      if ast.name = "BorderColor" then
        let v := EvaluateConstExprFloat e
        ({ samplerState with borderColor := [v, v, v, v] }, st)
      else (samplerState, st)
  | .InitializerExpr exprs =>
      if ast.name = "BorderColor" then
        match exprs with
        | [e0, e1, e2, e3] =>
            ({ samplerState with borderColor :=
                [EvaluateConstExprFloat e0, EvaluateConstExprFloat e1,
                 EvaluateConstExprFloat e2, EvaluateConstExprFloat e3] }, st)
        | _ =>
            (samplerState,
             Warning ctx st (R_FailedToInitializeSamplerValue R_InvalidArgCount "BorderColor"))
      else (samplerState, st)
  | .OtherExpr => (samplerState, st)

/-- Fold every value assignment of a sampler declaration, threading the
sampler state being built and the analyzer state. -/
def ReflectSamplerValues (ctx : Ctx) (values : List SamplerValue) (s : SamplerState)
    (st : RState) : SamplerState × RState :=
  match values with
  | [] => (s, st)
  | v :: rest =>
      let r := ReflectSamplerValue ctx v s st
      ReflectSamplerValues ctx rest r.1 r.2

/-- From the source (`VisitSamplerDecl`): build one sampler state from the
value list, starting at the defaults, and store it under the declared name;
no reachability check occurs here. -/
def VisitSamplerDecl (ctx : Ctx) (st : RState) (ident : String)
    (samplerValues : List SamplerValue) : RState :=
  let r := ReflectSamplerValues ctx samplerValues {} st
  { r.2 with data := { r.2.data with samplerStates := mapInsert r.2.data.samplerStates ident r.1 } }

/-- From the source (`ReflectionAnalyzer::ReflectAttributesNumThreads`):
only for the compute target and exactly three attribute arguments, fold
each argument to an integer into the thread-group dimensions. -/
def ReflectAttributesNumThreads (ctx : Ctx) (a : Attribute) (st : RState) : RState :=
  if ctx.shaderTarget = ShaderTarget.ComputeShader then
    match a.arguments with
    | [a0, a1, a2] =>
        { st with data := { st.data with numThreads :=
            { x := EvaluateConstExprInt a0
              y := EvaluateConstExprInt a1
              z := EvaluateConstExprInt a2 } } }
    | _ => st
  else st

/-- One step of the attribute scan: dispatch on the attribute kind,
handling only the thread-group-size attribute. -/
def reflectAttributeStep (ctx : Ctx) (acc : RState) (attr : Attribute) : RState :=
  match attr.attributeType with
  | .NumThreads => ReflectAttributesNumThreads ctx attr acc
  | .Other => acc

/-- From the source (`ReflectionAnalyzer::ReflectAttributes`): scan the
attribute list, handling only the thread-group-size attribute. -/
def ReflectAttributes (ctx : Ctx) (attribs : List Attribute) (st : RState) : RState :=
  attribs.foldl (reflectAttributeStep ctx) st

/-- From the source (`VisitFunctionDecl`): reflect the attribute list only
for the function flagged as the entry point. -/
def VisitFunctionDecl (ctx : Ctx) (st : RState) (isEntryPoint : Bool)
    (attribs : List Attribute) : RState :=
  if isEntryPoint then ReflectAttributes ctx attribs st else st

/-- From the source (`VisitUniformBufferDecl`): gated on the reachability
flag, append the constant-buffer binding. -/
def VisitUniformBufferDecl (ctx : Ctx) (st : RState) (reachable : Bool) (ident : String)
    (slotRegisters : List Register) : RState :=
  if reachable then
    { st with data := { st.data with constantBuffers :=
        st.data.constantBuffers ++ [{ ident := ident, location := GetBindingPoint ctx slotRegisters }] } }
  else st

/-- One step of the member-buffer loop of `VisitBufferDeclStmnt`: gated on
the reachability flag of the member, classify the binding into textures or
storage buffers by the buffer kind. -/
def visitBufferDeclStep (ctx : Ctx) (bufferType : BufferType) (acc : RState)
    (bufferDecl : BufferDecl) : RState :=
  if bufferDecl.reachable then
    let bindingSlot : BindingSlot :=
      { ident := bufferDecl.ident
        location := GetBindingPoint ctx bufferDecl.slotRegisters }
    if IsTextureBufferType bufferType then
      { acc with data := { acc.data with textures := acc.data.textures ++ [bindingSlot] } }
    else
      { acc with data := { acc.data with storageBuffers := acc.data.storageBuffers ++ [bindingSlot] } }
  else acc

/-- From the source (`VisitBufferDeclStmnt`): gated on the reachability
flag of the statement, fold the member buffer loop. -/
def VisitBufferDeclStmnt (ctx : Ctx) (st : RState) (reachable : Bool)
    (bufferType : BufferType) (bufferDecls : List BufferDecl) : RState :=
  if reachable then bufferDecls.foldl (visitBufferDeclStep ctx bufferType) st
  else st

/-- The binding entries contributed by the reachable members of a buffer
declaration statement, in source order. -/
def bufferEntries (ctx : Ctx) (ds : List BufferDecl) : List BindingSlot :=
  (ds.filter (fun bd => bd.reachable)).map
    (fun bd => { ident := bd.ident, location := GetBindingPoint ctx bd.slotRegisters })

/-- Dispatch one global statement to its visit function. -/
def visitStmnt (ctx : Ctx) (st : RState) : Decl → RState
  | .SamplerDecl _ ident vals => VisitSamplerDecl ctx st ident vals
  | .FunctionDecl isEntryPoint attribs => VisitFunctionDecl ctx st isEntryPoint attribs
  | .UniformBufferDecl reachable ident regs => VisitUniformBufferDecl ctx st reachable ident regs
  | .BufferDeclStmnt reachable bt ds => VisitBufferDeclStmnt ctx st reachable bt ds
  | .OtherStmnt => st

/-- Visit a statement list in source order. -/
def visitStmnts (ctx : Ctx) (st : RState) (ds : List Decl) : RState :=
  ds.foldl (visitStmnt ctx) st

/-- The input-attribute entries contributed by an entry point. -/
def entryPointInputs (ep : FunctionDeclData) : List (String × Int) :=
  ep.inputVarDeclRefs.map (fun v => (v.ident, v.semanticIndex))
    ++ ep.inputVarDeclRefsSV.map (fun v => (v.semanticName, v.semanticIndex))

/-- The output-attribute entries contributed by an entry point, including
its own return semantic when that is a system value. -/
def entryPointOutputs (ep : FunctionDeclData) : List (String × Int) :=
  ep.outputVarDeclRefs.map (fun v => (v.ident, v.semanticIndex))
    ++ ep.outputVarDeclRefsSV.map (fun v => (v.semanticName, v.semanticIndex))
    ++ (if ep.semanticIsSystemValue then [(ep.semanticName, ep.semanticIndex)] else [])

/-- From the source (`VisitProgram`): visit the active and the disabled
statements, then, when an entry point is resolved, append its input and
output attribute entries. -/
def VisitProgram (ctx : Ctx) (st : RState) (p : Program) : RState :=
  let st1 := visitStmnts ctx st p.globalStmnts
  let st2 := visitStmnts ctx st1 p.disabledAST
  match p.entryPointRef with
  | some ep =>
      { st2 with data := { st2.data with
          inputAttributes := st2.data.inputAttributes ++ entryPointInputs ep
          outputAttributes := st2.data.outputAttributes ++ entryPointOutputs ep } }
  | Option.none => st2

/-- From the source (`ReflectionAnalyzer::Reflect`): copy the parameters
and visit the program, starting from a fresh output aggregate and an empty
report sink. -/
def Reflect (p : Program) (shaderTarget : ShaderTarget) (enableWarnings : Bool) : RState :=
  VisitProgram { shaderTarget := shaderTarget, enableWarnings := enableWarnings } {} p

/-! Helper lemmas shared by the claim theorems. -/

theorem warning_data_eq (ctx : Ctx) (st : RState) (m : String) :
    (Warning ctx st m).data = st.data := by
  unfold Warning
  split <;> rfl

theorem warning_off (ctx : Ctx) (st : RState) (m : String)
    (h : ctx.enableWarnings = false) : Warning ctx st m = st := by
  simp [Warning, h]

theorem warning_on (ctx : Ctx) (st : RState) (m : String)
    (h : ctx.enableWarnings = true) : (Warning ctx st m).warnings = st.warnings ++ [m] := by
  simp [Warning, h]

theorem rsvFilter_snd_cases (ctx : Ctx) (value : String) (f : Filter) (st : RState) :
    (ReflectSamplerValueFilter ctx value f st).2 = st ∨
      ∃ m, (ReflectSamplerValueFilter ctx value f st).2 = Warning ctx st m := by
  unfold ReflectSamplerValueFilter
  cases stringToFilter value
  · exact Or.inr ⟨R_InvalidFilterValue value, rfl⟩
  · exact Or.inl rfl

theorem rsvAddr_snd_cases (ctx : Ctx) (value : String) (m0 : TextureAddressMode) (st : RState) :
    (ReflectSamplerValueTextureAddressMode ctx value m0 st).2 = st ∨
      ∃ m, (ReflectSamplerValueTextureAddressMode ctx value m0 st).2 = Warning ctx st m := by
  unfold ReflectSamplerValueTextureAddressMode
  cases stringToTexAddressMode value
  · exact Or.inr ⟨R_InvalidTexAddressModeValue value, rfl⟩
  · exact Or.inl rfl

theorem rsvCmp_snd_cases (ctx : Ctx) (value : String) (c0 : ComparisonFunc) (st : RState) :
    (ReflectSamplerValueComparisonFunc ctx value c0 st).2 = st ∨
      ∃ m, (ReflectSamplerValueComparisonFunc ctx value c0 st).2 = Warning ctx st m := by
  unfold ReflectSamplerValueComparisonFunc
  cases stringToCompareFunc value
  · exact Or.inr ⟨R_InvalidCompareFuncValue value, rfl⟩
  · exact Or.inl rfl

theorem reflectSamplerValue_snd_cases (ctx : Ctx) (v : SamplerValue) (s : SamplerState)
    (st : RState) :
    (ReflectSamplerValue ctx v s st).2 = st ∨
      ∃ m, (ReflectSamplerValue ctx v s st).2 = Warning ctx st m := by
  obtain ⟨name, value⟩ := v
  cases value with
  | LiteralExpr value =>
      simp only [ReflectSamplerValue]
      split_ifs <;> exact Or.inl rfl
  | ObjectExpr identV =>
      simp only [ReflectSamplerValue]
      split_ifs
      · exact rsvFilter_snd_cases ctx identV s.filter st
      · exact rsvAddr_snd_cases ctx identV s.addressU st
      · exact rsvAddr_snd_cases ctx identV s.addressV st
      · exact rsvAddr_snd_cases ctx identV s.addressW st
      · exact rsvCmp_snd_cases ctx identV s.comparisonFunc st
      · exact Or.inl rfl
  | CallExpr isVectorCtor arguments =>
      simp only [ReflectSamplerValue]
      split_ifs
      · split
        · exact Or.inl rfl
        · exact Or.inr ⟨R_FailedToInitializeSamplerValue R_InvalidTypeOrArgCount "BorderColor", rfl⟩
      · exact Or.inl rfl
  | CastExpr e =>
      simp only [ReflectSamplerValue]
      split_ifs <;> exact Or.inl rfl
  | InitializerExpr exprs =>
      simp only [ReflectSamplerValue]
      split_ifs
      · split
        · exact Or.inl rfl
        · exact Or.inr ⟨R_FailedToInitializeSamplerValue R_InvalidArgCount "BorderColor", rfl⟩
      · exact Or.inl rfl
  | OtherExpr => exact Or.inl rfl

theorem reflectSamplerValue_data (ctx : Ctx) (v : SamplerValue) (s : SamplerState) (st : RState) :
    (ReflectSamplerValue ctx v s st).2.data = st.data := by
  rcases reflectSamplerValue_snd_cases ctx v s st with h | ⟨m, h⟩
  · rw [h]
  · rw [h, warning_data_eq]

theorem reflectSamplerValue_off (ctx : Ctx) (v : SamplerValue) (s : SamplerState) (st : RState)
    (hw : ctx.enableWarnings = false) : (ReflectSamplerValue ctx v s st).2 = st := by
  rcases reflectSamplerValue_snd_cases ctx v s st with h | ⟨m, h⟩
  · exact h
  · rw [h, warning_off ctx st m hw]

theorem reflectSamplerValues_data (ctx : Ctx) (vals : List SamplerValue) :
    ∀ (s : SamplerState) (st : RState), (ReflectSamplerValues ctx vals s st).2.data = st.data := by
  induction vals with
  | nil => intro s st; rfl
  | cons v rest ih =>
      intro s st
      simp only [ReflectSamplerValues]
      exact (ih _ _).trans (reflectSamplerValue_data ctx v s st)

theorem reflectSamplerValues_off (ctx : Ctx) (vals : List SamplerValue)
    (hw : ctx.enableWarnings = false) :
    ∀ (s : SamplerState) (st : RState), (ReflectSamplerValues ctx vals s st).2 = st := by
  induction vals with
  | nil => intro s st; rfl
  | cons v rest ih =>
      intro s st
      simp only [ReflectSamplerValues]
      exact (ih _ _).trans (reflectSamplerValue_off ctx v s st hw)

theorem foldl_proj_eq {β γ : Type} (f : RState → β → RState) (proj : RState → γ)
    (h : ∀ st b, proj (f st b) = proj st) :
    ∀ (l : List β) (st : RState), proj (List.foldl f st l) = proj st := by
  intro l
  induction l with
  | nil => intro st; rfl
  | cons b rest ih => intro st; exact (ih _).trans (h st b)

theorem reflectAttributesNumThreads_shape (ctx : Ctx) (a : Attribute) (st : RState) :
    ReflectAttributesNumThreads ctx a st =
      { st with data := { st.data with
          numThreads := (ReflectAttributesNumThreads ctx a st).data.numThreads } } := by
  unfold ReflectAttributesNumThreads
  split
  · split <;> rfl
  · rfl

theorem reflectAttributeStep_shape (ctx : Ctx) (st : RState) (b : Attribute) :
    reflectAttributeStep ctx st b =
      { st with data := { st.data with
          numThreads := (reflectAttributeStep ctx st b).data.numThreads } } := by
  unfold reflectAttributeStep
  split
  · exact reflectAttributesNumThreads_shape ctx _ st
  · rfl

theorem visitBufferDeclStep_warnings (ctx : Ctx) (bt : BufferType) (st : RState)
    (b : BufferDecl) : (visitBufferDeclStep ctx bt st b).warnings = st.warnings := by
  unfold visitBufferDeclStep
  split_ifs <;> rfl

theorem visitStmnt_warnings_off (ctx : Ctx) (st : RState) (d : Decl)
    (hw : ctx.enableWarnings = false) : (visitStmnt ctx st d).warnings = st.warnings := by
  cases d with
  | SamplerDecl r ident vals =>
      show (VisitSamplerDecl ctx st ident vals).warnings = st.warnings
      unfold VisitSamplerDecl
      show (ReflectSamplerValues ctx vals {} st).2.warnings = st.warnings
      rw [reflectSamplerValues_off ctx vals hw]
  | FunctionDecl isEntryPoint attribs =>
      show (VisitFunctionDecl ctx st isEntryPoint attribs).warnings = st.warnings
      unfold VisitFunctionDecl
      split
      · exact foldl_proj_eq _ (fun st => st.warnings)
          (fun st b => by rw [reflectAttributeStep_shape]) attribs st
      · rfl
  | UniformBufferDecl r ident regs =>
      show (VisitUniformBufferDecl ctx st r ident regs).warnings = st.warnings
      unfold VisitUniformBufferDecl
      split <;> rfl
  | BufferDeclStmnt r bt ds =>
      show (VisitBufferDeclStmnt ctx st r bt ds).warnings = st.warnings
      unfold VisitBufferDeclStmnt
      split
      · exact foldl_proj_eq _ (fun st => st.warnings)
          (visitBufferDeclStep_warnings ctx bt) ds st
      · rfl
  | OtherStmnt => rfl

theorem visitStmnts_warnings_off (ctx : Ctx) (ds : List Decl) (st : RState)
    (hw : ctx.enableWarnings = false) : (visitStmnts ctx st ds).warnings = st.warnings :=
  foldl_proj_eq _ (fun st => st.warnings)
    (fun st b => visitStmnt_warnings_off ctx st b hw) ds st

theorem visitBufferDeclStep_io (ctx : Ctx) (bt : BufferType) (st : RState) (b : BufferDecl) :
    ((visitBufferDeclStep ctx bt st b).data.inputAttributes,
      (visitBufferDeclStep ctx bt st b).data.outputAttributes)
      = (st.data.inputAttributes, st.data.outputAttributes) := by
  unfold visitBufferDeclStep
  split_ifs <;> rfl

theorem visitStmnt_io (ctx : Ctx) (st : RState) (d : Decl) :
    ((visitStmnt ctx st d).data.inputAttributes, (visitStmnt ctx st d).data.outputAttributes)
      = (st.data.inputAttributes, st.data.outputAttributes) := by
  cases d with
  | SamplerDecl r ident vals =>
      show ((VisitSamplerDecl ctx st ident vals).data.inputAttributes,
        (VisitSamplerDecl ctx st ident vals).data.outputAttributes)
        = (st.data.inputAttributes, st.data.outputAttributes)
      unfold VisitSamplerDecl
      show ((ReflectSamplerValues ctx vals {} st).2.data.inputAttributes,
        (ReflectSamplerValues ctx vals {} st).2.data.outputAttributes)
        = (st.data.inputAttributes, st.data.outputAttributes)
      rw [reflectSamplerValues_data ctx vals]
  | FunctionDecl isEntryPoint attribs =>
      show ((VisitFunctionDecl ctx st isEntryPoint attribs).data.inputAttributes,
        (VisitFunctionDecl ctx st isEntryPoint attribs).data.outputAttributes)
        = (st.data.inputAttributes, st.data.outputAttributes)
      unfold VisitFunctionDecl
      split
      · exact foldl_proj_eq _
          (fun st => (st.data.inputAttributes, st.data.outputAttributes))
          (fun st b => by rw [reflectAttributeStep_shape]) attribs st
      · rfl
  | UniformBufferDecl r ident regs =>
      show ((VisitUniformBufferDecl ctx st r ident regs).data.inputAttributes,
        (VisitUniformBufferDecl ctx st r ident regs).data.outputAttributes)
        = (st.data.inputAttributes, st.data.outputAttributes)
      unfold VisitUniformBufferDecl
      split <;> rfl
  | BufferDeclStmnt r bt ds =>
      show ((VisitBufferDeclStmnt ctx st r bt ds).data.inputAttributes,
        (VisitBufferDeclStmnt ctx st r bt ds).data.outputAttributes)
        = (st.data.inputAttributes, st.data.outputAttributes)
      unfold VisitBufferDeclStmnt
      split
      · exact foldl_proj_eq _
          (fun st => (st.data.inputAttributes, st.data.outputAttributes))
          (visitBufferDeclStep_io ctx bt) ds st
      · rfl
  | OtherStmnt => rfl

theorem visitStmnts_io (ctx : Ctx) (ds : List Decl) (st : RState) :
    ((visitStmnts ctx st ds).data.inputAttributes, (visitStmnts ctx st ds).data.outputAttributes)
      = (st.data.inputAttributes, st.data.outputAttributes) :=
  foldl_proj_eq _ (fun st => (st.data.inputAttributes, st.data.outputAttributes))
    (visitStmnt_io ctx) ds st

theorem visitBufferDeclStep_samplerStates (ctx : Ctx) (bt : BufferType) (st : RState)
    (b : BufferDecl) : (visitBufferDeclStep ctx bt st b).data.samplerStates
      = st.data.samplerStates := by
  unfold visitBufferDeclStep
  split_ifs <;> rfl

theorem mapLookup_insert (m : List (String × SamplerState)) (k : String) (v : SamplerState) :
    mapLookup (mapInsert m k v) k = some v := by
  induction m with
  | nil => simp [mapInsert, mapLookup]
  | cons p rest ih =>
      obtain ⟨k1, v1⟩ := p
      unfold mapInsert
      split_ifs with h
      · simp [mapLookup]
      · simpa [mapLookup, h] using ih

theorem countKey_insert_ne (m : List (String × SamplerState)) (k1 k : String) (v : SamplerState)
    (h : k1 ≠ k) : countKey (mapInsert m k1 v) k = countKey m k := by
  induction m with
  | nil => simp [mapInsert, countKey, h]
  | cons p rest ih =>
      obtain ⟨k2, v2⟩ := p
      unfold mapInsert
      split_ifs with h2
      · subst h2
        simp [countKey, h]
      · simp [countKey, ih]

theorem countKey_insert_eq (m : List (String × SamplerState)) (k : String) (v : SamplerState)
    (h : countKey m k ≤ 1) : countKey (mapInsert m k v) k = 1 := by
  induction m with
  | nil => simp [mapInsert, countKey]
  | cons p rest ih =>
      obtain ⟨k1, v1⟩ := p
      unfold mapInsert
      split_ifs with h1
      · subst h1
        simp [countKey] at h ⊢
        omega
      · simp only [countKey, if_neg h1] at h ⊢
        simp only [Nat.zero_add] at h ⊢
        exact ih h

theorem countKey_insert_le (m : List (String × SamplerState)) (k1 k : String) (v : SamplerState)
    (h : countKey m k ≤ 1) : countKey (mapInsert m k1 v) k ≤ 1 := by
  by_cases hk : k1 = k
  · subst hk
    rw [countKey_insert_eq m k1 v h]
  · rw [countKey_insert_ne m k1 k v hk]
    exact h

theorem visitStmnt_count_le (ctx : Ctx) (st : RState) (d : Decl)
    (h : ∀ k, countKey st.data.samplerStates k ≤ 1) :
    ∀ k, countKey (visitStmnt ctx st d).data.samplerStates k ≤ 1 := by
  intro k
  cases d with
  | SamplerDecl r ident vals =>
      show countKey (VisitSamplerDecl ctx st ident vals).data.samplerStates k ≤ 1
      unfold VisitSamplerDecl
      show countKey
        (mapInsert (ReflectSamplerValues ctx vals {} st).2.data.samplerStates ident
          (ReflectSamplerValues ctx vals {} st).1) k ≤ 1
      rw [reflectSamplerValues_data ctx vals]
      exact countKey_insert_le _ _ _ _ (h k)
  | FunctionDecl isEntryPoint attribs =>
      show countKey (VisitFunctionDecl ctx st isEntryPoint attribs).data.samplerStates k ≤ 1
      unfold VisitFunctionDecl
      split
      · have := foldl_proj_eq (reflectAttributeStep ctx) (fun st => st.data.samplerStates)
          (fun st b => by rw [reflectAttributeStep_shape]) attribs st
        rw [ReflectAttributes, this]
        exact h k
      · exact h k
  | UniformBufferDecl r ident regs =>
      show countKey (VisitUniformBufferDecl ctx st r ident regs).data.samplerStates k ≤ 1
      unfold VisitUniformBufferDecl
      split
      · exact h k
      · exact h k
  | BufferDeclStmnt r bt ds =>
      show countKey (VisitBufferDeclStmnt ctx st r bt ds).data.samplerStates k ≤ 1
      unfold VisitBufferDeclStmnt
      split
      · have := foldl_proj_eq (visitBufferDeclStep ctx bt) (fun st => st.data.samplerStates)
          (visitBufferDeclStep_samplerStates ctx bt) ds st
        rw [this]
        exact h k
      · exact h k
  | OtherStmnt => exact h k

theorem visitStmnts_count_le (ctx : Ctx) (ds : List Decl) :
    ∀ (st : RState), (∀ k, countKey st.data.samplerStates k ≤ 1) →
      ∀ k, countKey (visitStmnts ctx st ds).data.samplerStates k ≤ 1 := by
  induction ds with
  | nil => intro st h; exact h
  | cons d rest ih =>
      intro st h
      exact ih (visitStmnt ctx st d) (visitStmnt_count_le ctx st d h)

theorem bufferFold_textures (ctx : Ctx) (bt : BufferType) (hbt : IsTextureBufferType bt = true)
    (ds : List BufferDecl) : ∀ (st : RState),
    (List.foldl (visitBufferDeclStep ctx bt) st ds).data.textures
      = st.data.textures ++ bufferEntries ctx ds := by
  induction ds with
  | nil => intro st; simp [bufferEntries]
  | cons bd rest ih =>
      intro st
      simp only [List.foldl_cons]
      rw [ih]
      by_cases hr : bd.reachable
      · simp [visitBufferDeclStep, bufferEntries, hr, hbt, List.filter_cons]
      · simp [visitBufferDeclStep, bufferEntries, hr, List.filter_cons]

theorem bufferFold_storage (ctx : Ctx) (bt : BufferType) (hbt : IsTextureBufferType bt = false)
    (ds : List BufferDecl) : ∀ (st : RState),
    (List.foldl (visitBufferDeclStep ctx bt) st ds).data.storageBuffers
      = st.data.storageBuffers ++ bufferEntries ctx ds := by
  induction ds with
  | nil => intro st; simp [bufferEntries]
  | cons bd rest ih =>
      intro st
      simp only [List.foldl_cons]
      rw [ih]
      by_cases hr : bd.reachable
      · simp [visitBufferDeclStep, bufferEntries, hr, hbt, List.filter_cons]
      · simp [visitBufferDeclStep, bufferEntries, hr, List.filter_cons]

theorem getBindingPoint_none (ctx : Ctx) (regs : List Register)
    (h : ∀ r ∈ regs, ctx.shaderTarget ∉ r.targets) : GetBindingPoint ctx regs = -1 := by
  unfold GetBindingPoint Register.GetForTarget
  have hf : regs.find? (fun r => r.targets.any (fun x => decide (x = ctx.shaderTarget)))
      = Option.none := by
    rw [List.find?_eq_none]
    intro r hr
    simp only [List.any_eq_true, decide_eq_true_eq, not_exists, not_and]
    intro x hx hxe
    exact h r hr (hxe ▸ hx)
  rw [hf]

theorem getBindingPoint_some (ctx : Ctx) (regs : List Register) (r : Register)
    (h : Register.GetForTarget regs ctx.shaderTarget = some r) :
    GetBindingPoint ctx regs = r.slot ∧ r ∈ regs ∧ ctx.shaderTarget ∈ r.targets := by
  unfold Register.GetForTarget at h
  refine ⟨?_, List.mem_of_find?_eq_some h, ?_⟩
  · unfold GetBindingPoint Register.GetForTarget
    rw [h]
  · have hp := List.find?_some h
    simp only [List.any_eq_true, decide_eq_true_eq] at hp
    rcases hp with ⟨x, hx, hxe⟩
    exact hxe ▸ hx

/-! Claim theorems. -/

/-- Claim C3: whenever evaluating an expression fails — because it reaches
a runtime variable access or because the evaluator itself rejects it — the
constant-folding adapter returns the empty variant rather than propagating
the failure, and the integer and floating-point convenience wrappers turn
that empty result into zero. -/
theorem C3_constant_folder_failure_to_none :
    (∀ (e : Expr) (err : EvalError), evaluateExpr e = Except.error err →
        EvaluateConstExpr e = Variant.none) ∧
    (∀ ident, EvaluateConstExpr (Expr.ObjectExpr ident) = Variant.none) ∧
    (∀ e : Expr, EvaluateConstExpr e = Variant.none →
        EvaluateConstExprInt e = 0 ∧ EvaluateConstExprFloat e = 0) := by
  refine ⟨?_, ?_, ?_⟩
  · intro e err h
    unfold EvaluateConstExpr
    rw [h]
  · intro ident
    rfl
  · intro e h
    unfold EvaluateConstExprInt EvaluateConstExprFloat
    rw [h]
    exact ⟨rfl, rfl⟩

/-- Witness for C3: a bare variable access fails with a variable-access
error, folds to the empty variant, and both wrappers return zero on it. -/
theorem C3_constant_folder_failure_to_none_witness :
    evaluateExpr (Expr.ObjectExpr "color") = Except.error (EvalError.varAccess "color") ∧
    EvaluateConstExpr (Expr.ObjectExpr "color") = Variant.none ∧
    EvaluateConstExprInt (Expr.ObjectExpr "color") = 0 ∧
    EvaluateConstExprFloat (Expr.ObjectExpr "color") = 0 := by
  refine ⟨rfl, C3_constant_folder_failure_to_none.1 (Expr.ObjectExpr "color") _ rfl, ?_⟩
  exact C3_constant_folder_failure_to_none.2.2 (Expr.ObjectExpr "color")
    (C3_constant_folder_failure_to_none.1 (Expr.ObjectExpr "color") _ rfl)

/-- Claim C8: reflection is deterministic in the decorated input tree —
running it twice with the same unmodified program and the same shader
target yields identical results (in the embedding the pass is a pure
function of the program, the target, and the warnings flag). -/
theorem C8_reflect_deterministic (p : Program) (t : ShaderTarget) (w : Bool)
    (r1 r2 : RState) (h1 : Reflect p t w = r1) (h2 : Reflect p t w = r2) : r1 = r2 := by
  rw [← h1, ← h2]

/-- Witness for C8: two runs on a concrete program agree. -/
theorem C8_reflect_deterministic_witness :
    Reflect { globalStmnts := [], disabledAST := [], entryPointRef := Option.none }
        ShaderTarget.VertexShader true
      = Reflect { globalStmnts := [], disabledAST := [], entryPointRef := Option.none }
        ShaderTarget.VertexShader true :=
  C8_reflect_deterministic
    { globalStmnts := [], disabledAST := [], entryPointRef := Option.none }
    ShaderTarget.VertexShader true _ _ rfl rfl

/-- Claim C9: when reflection runs with warnings disabled, the report sink
stays empty on every input — every warning path is entirely suppressed. -/
theorem C9_warnings_disabled_silent (p : Program) (t : ShaderTarget) :
    (Reflect p t false).warnings = [] := by
  unfold Reflect VisitProgram
  dsimp only
  cases hp : p.entryPointRef with
  | none =>
      rw [visitStmnts_warnings_off _ _ _ rfl, visitStmnts_warnings_off _ _ _ rfl]
  | some ep =>
      show (visitStmnts { shaderTarget := t, enableWarnings := false }
        (visitStmnts { shaderTarget := t, enableWarnings := false } {} p.globalStmnts)
        p.disabledAST).warnings = []
      rw [visitStmnts_warnings_off _ _ _ rfl, visitStmnts_warnings_off _ _ _ rfl]

/-- Counterexample for C1 as stated: a sampler declaration whose
reachability flag is false is visited and nevertheless stored in
`samplerStates` — the sampler visit never consults the flag. -/
theorem C1_unreachable_sampler_recorded :
    (Reflect { globalStmnts := [Decl.SamplerDecl false "unreachableSampler" []],
               disabledAST := [], entryPointRef := Option.none }
      ShaderTarget.VertexShader true).data.samplerStates
      = [("unreachableSampler", {})] := by
  rfl

/-- Claim C1 (amended): a visited declaration whose reachability flag is
false contributes nothing to `constantBuffers`, `textures`, or
`storageBuffers`; a visited sampler declaration, however, is recorded in
`samplerStates` regardless of its flag, and it never touches the three
buffer lists either way. -/
theorem C1_reachability_gate (ctx : Ctx) (st : RState) (ident : String)
    (regs : List Register) (bt : BufferType) (ds : List BufferDecl)
    (r : Bool) (vals : List SamplerValue) :
    VisitUniformBufferDecl ctx st false ident regs = st ∧
    VisitBufferDeclStmnt ctx st false bt ds = st ∧
    (visitStmnt ctx st (Decl.SamplerDecl r ident vals)).data.constantBuffers
      = st.data.constantBuffers ∧
    (visitStmnt ctx st (Decl.SamplerDecl r ident vals)).data.textures = st.data.textures ∧
    (visitStmnt ctx st (Decl.SamplerDecl r ident vals)).data.storageBuffers
      = st.data.storageBuffers := by
  refine ⟨rfl, rfl, ?_, ?_, ?_⟩
  · show (ReflectSamplerValues ctx vals {} st).2.data.constantBuffers
      = st.data.constantBuffers
    rw [reflectSamplerValues_data ctx vals]
  · show (ReflectSamplerValues ctx vals {} st).2.data.textures = st.data.textures
    rw [reflectSamplerValues_data ctx vals]
  · show (ReflectSamplerValues ctx vals {} st).2.data.storageBuffers
      = st.data.storageBuffers
    rw [reflectSamplerValues_data ctx vals]

/-- Counterexample for C2 as stated: a `BorderColor` assignment whose value
expression is neither a call, a cast, nor an initializer list produces no
warning even with warnings enabled, and leaves both the sampler state and
the analyzer state untouched — the claim demands a warning for every
unaccepted shape. -/
theorem C2_other_shape_silent :
    ReflectSamplerValue { shaderTarget := ShaderTarget.VertexShader, enableWarnings := true }
        { name := "BorderColor", value := Expr.OtherExpr } {} {}
      = ({}, {}) := by
  rfl

/-- Claim C2 (amended): a `BorderColor` assignment accepts the three stated
shapes — a 4-argument vector-constructor call with each argument folded
independently, a cast with the inner expression folded once and broadcast,
and a 4-element initializer list with each element folded independently; a
call that is not a 4-argument vector constructor, or an initializer list
without exactly 4 elements, produces one non-fatal warning naming the
value and leaves the border color unchanged; every other expression shape
— a literal (captured by the literal branch, where `BorderColor` matches
no numeric field), a bare identifier (captured by the identifier branch,
where it matches no enumerated field), or any remaining node kind — is
silently ignored, with no warning and no change. -/
theorem C2_borderColor_shapes (ctx : Ctx) (st : RState) (s : SamplerState) :
    (∀ a0 a1 a2 a3 : Expr,
        ReflectSamplerValue ctx
            { name := "BorderColor", value := Expr.CallExpr true [a0, a1, a2, a3] } s st
          = ({ s with borderColor :=
                [EvaluateConstExprFloat a0, EvaluateConstExprFloat a1,
                 EvaluateConstExprFloat a2, EvaluateConstExprFloat a3] }, st)) ∧
    (∀ e : Expr,
        ReflectSamplerValue ctx { name := "BorderColor", value := Expr.CastExpr e } s st
          = ({ s with borderColor :=
                [EvaluateConstExprFloat e, EvaluateConstExprFloat e,
                 EvaluateConstExprFloat e, EvaluateConstExprFloat e] }, st)) ∧
    (∀ e0 e1 e2 e3 : Expr,
        ReflectSamplerValue ctx
            { name := "BorderColor", value := Expr.InitializerExpr [e0, e1, e2, e3] } s st
          = ({ s with borderColor :=
                [EvaluateConstExprFloat e0, EvaluateConstExprFloat e1,
                 EvaluateConstExprFloat e2, EvaluateConstExprFloat e3] }, st)) ∧
    (∀ (isVec : Bool) (args : List Expr), ¬(isVec = true ∧ args.length = 4) →
        ReflectSamplerValue ctx
            { name := "BorderColor", value := Expr.CallExpr isVec args } s st
          = (s, Warning ctx st
              (R_FailedToInitializeSamplerValue R_InvalidTypeOrArgCount "BorderColor"))) ∧
    (∀ es : List Expr, es.length ≠ 4 →
        ReflectSamplerValue ctx
            { name := "BorderColor", value := Expr.InitializerExpr es } s st
          = (s, Warning ctx st
              (R_FailedToInitializeSamplerValue R_InvalidArgCount "BorderColor"))) ∧
    (ReflectSamplerValue ctx { name := "BorderColor", value := Expr.OtherExpr } s st
      = (s, st)) ∧
    (∀ lit : String,
        ReflectSamplerValue ctx { name := "BorderColor", value := Expr.LiteralExpr lit } s st
          = (s, st)) ∧
    (∀ identV : String,
        ReflectSamplerValue ctx { name := "BorderColor", value := Expr.ObjectExpr identV } s st
          = (s, st)) := by
  refine ⟨fun a0 a1 a2 a3 => rfl, fun e => rfl, fun e0 e1 e2 e3 => rfl, ?_, ?_, rfl,
    fun lit => rfl, fun identV => rfl⟩
  · intro isVec args h
    cases isVec with
    | false => rfl
    | true =>
        rcases args with _ | ⟨a0, _ | ⟨a1, _ | ⟨a2, _ | ⟨a3, _ | ⟨a4, rest⟩⟩⟩⟩⟩
        · rfl
        · rfl
        · rfl
        · rfl
        · exact absurd ⟨rfl, rfl⟩ h
        · rfl
  · intro es h
    rcases es with _ | ⟨e0, _ | ⟨e1, _ | ⟨e2, _ | ⟨e3, _ | ⟨e4, rest⟩⟩⟩⟩⟩
    · rfl
    · rfl
    · rfl
    · rfl
    · exact absurd rfl h
    · rfl

/-- Witness for C2: a 3-element initializer list for `BorderColor` yields
exactly the warning naming the value, with the sampler state unchanged. -/
theorem C2_borderColor_shapes_witness :
    ReflectSamplerValue { shaderTarget := ShaderTarget.VertexShader, enableWarnings := true }
        { name := "BorderColor",
          value := Expr.InitializerExpr
            [Expr.LiteralExpr "1", Expr.LiteralExpr "2", Expr.LiteralExpr "3"] } {} {}
      = ({}, Warning { shaderTarget := ShaderTarget.VertexShader, enableWarnings := true } {}
          (R_FailedToInitializeSamplerValue R_InvalidArgCount "BorderColor")) :=
  (C2_borderColor_shapes
      { shaderTarget := ShaderTarget.VertexShader, enableWarnings := true } {} {}).2.2.2.2.1
    [Expr.LiteralExpr "1", Expr.LiteralExpr "2", Expr.LiteralExpr "3"] (by decide)

/-- Claim C4: for the entry-point function, when the shader target is the
compute stage and the thread-group-size attribute carries exactly three
arguments, the thread-group dimensions are the three arguments folded to
integers, in order; any other target or argument count leaves the state —
including the dimensions at their previous default — completely unchanged,
and no warning is ever produced by this path; a function not flagged as
entry point reflects no attributes at all. -/
theorem C4_numThreads_compute_gate (ctx : Ctx) (st : RState) (a : Attribute) :
    (∀ e0 e1 e2 : Expr, ctx.shaderTarget = ShaderTarget.ComputeShader →
        a.arguments = [e0, e1, e2] →
        ReflectAttributesNumThreads ctx a st =
          { st with data := { st.data with numThreads :=
              { x := EvaluateConstExprInt e0
                y := EvaluateConstExprInt e1
                z := EvaluateConstExprInt e2 } } }) ∧
    (ctx.shaderTarget ≠ ShaderTarget.ComputeShader →
        ReflectAttributesNumThreads ctx a st = st) ∧
    (a.arguments.length ≠ 3 → ReflectAttributesNumThreads ctx a st = st) ∧
    (ReflectAttributesNumThreads ctx a st).warnings = st.warnings ∧
    (∀ attribs, VisitFunctionDecl ctx st false attribs = st) ∧
    (∀ attribs, VisitFunctionDecl ctx st true attribs = ReflectAttributes ctx attribs st) := by
  refine ⟨?_, ?_, ?_, ?_, fun attribs => rfl, fun attribs => rfl⟩
  · intro e0 e1 e2 ht ha
    simp [ReflectAttributesNumThreads, ht, ha]
  · intro h
    unfold ReflectAttributesNumThreads
    rw [if_neg h]
  · intro h
    unfold ReflectAttributesNumThreads
    split_ifs
    · rcases ha : a.arguments with _ | ⟨e0, _ | ⟨e1, _ | ⟨e2, _ | ⟨e3, rest⟩⟩⟩⟩ <;>
        simp [ha] at h ⊢
    · rfl
  · rw [reflectAttributesNumThreads_shape]

/-- Witness for C4: on the compute target a three-argument attribute sets
the dimensions to the folded integers; on the vertex target the identical
attribute changes nothing. -/
theorem C4_numThreads_compute_gate_witness :
    ReflectAttributesNumThreads { shaderTarget := ShaderTarget.ComputeShader, enableWarnings := true }
        { attributeType := AttributeType.NumThreads,
          arguments := [Expr.LiteralExpr "8", Expr.LiteralExpr "8", Expr.LiteralExpr "1"] } {}
      = { data := { numThreads := { x := 8, y := 8, z := 1 } }, warnings := [] } ∧
    ReflectAttributesNumThreads { shaderTarget := ShaderTarget.VertexShader, enableWarnings := true }
        { attributeType := AttributeType.NumThreads,
          arguments := [Expr.LiteralExpr "8", Expr.LiteralExpr "8", Expr.LiteralExpr "1"] } {}
      = {} := by
  constructor
  · have h := (C4_numThreads_compute_gate
        { shaderTarget := ShaderTarget.ComputeShader, enableWarnings := true } {}
        { attributeType := AttributeType.NumThreads,
          arguments := [Expr.LiteralExpr "8", Expr.LiteralExpr "8", Expr.LiteralExpr "1"] }).1
      (Expr.LiteralExpr "8") (Expr.LiteralExpr "8") (Expr.LiteralExpr "1") rfl rfl
    rw [h]
    rfl
  · exact (C4_numThreads_compute_gate
        { shaderTarget := ShaderTarget.VertexShader, enableWarnings := true } {}
        { attributeType := AttributeType.NumThreads,
          arguments := [Expr.LiteralExpr "8", Expr.LiteralExpr "8", Expr.LiteralExpr "1"] }).2.1
      (by decide)

/-- Claim C5: every reflected constant-buffer entry and every reflected
member-buffer entry records as its binding slot the slot number of the
register assignment that applies to the active shader target, and -1 when
no register assignment applies to that target. -/
theorem C5_bindingSlot_register_match (ctx : Ctx) (st : RState) (ident : String)
    (regs : List Register) (bt : BufferType) (ds : List BufferDecl) :
    ((VisitUniformBufferDecl ctx st true ident regs).data.constantBuffers
        = st.data.constantBuffers
            ++ [{ ident := ident, location := GetBindingPoint ctx regs }]) ∧
    (∀ r : Register, Register.GetForTarget regs ctx.shaderTarget = some r →
        GetBindingPoint ctx regs = r.slot ∧ r ∈ regs ∧ ctx.shaderTarget ∈ r.targets) ∧
    ((∀ r ∈ regs, ctx.shaderTarget ∉ r.targets) → GetBindingPoint ctx regs = -1) ∧
    (IsTextureBufferType bt = true →
        (VisitBufferDeclStmnt ctx st true bt ds).data.textures
          = st.data.textures ++ bufferEntries ctx ds) ∧
    (IsTextureBufferType bt = false →
        (VisitBufferDeclStmnt ctx st true bt ds).data.storageBuffers
          = st.data.storageBuffers ++ bufferEntries ctx ds) := by
  refine ⟨rfl, fun r h => getBindingPoint_some ctx regs r h,
    getBindingPoint_none ctx regs, ?_, ?_⟩
  · intro hbt
    exact bufferFold_textures ctx bt hbt ds st
  · intro hbt
    exact bufferFold_storage ctx bt hbt ds st

/-- Witness for C5: a register list with a vertex-target assignment of
slot 3 resolves to 3 under the vertex target and to -1 under the fragment
target. -/
theorem C5_bindingSlot_register_match_witness :
    GetBindingPoint { shaderTarget := ShaderTarget.VertexShader, enableWarnings := true }
        [{ targets := [ShaderTarget.VertexShader], slot := 3 }] = 3 ∧
    GetBindingPoint { shaderTarget := ShaderTarget.FragmentShader, enableWarnings := true }
        [{ targets := [ShaderTarget.VertexShader], slot := 3 }] = -1 := by
  constructor
  · exact ((C5_bindingSlot_register_match
        { shaderTarget := ShaderTarget.VertexShader, enableWarnings := true } {} "cbuf"
        [{ targets := [ShaderTarget.VertexShader], slot := 3 }] BufferType.Buffer []).2.1
      { targets := [ShaderTarget.VertexShader], slot := 3 } rfl).1
  · exact (C5_bindingSlot_register_match
        { shaderTarget := ShaderTarget.FragmentShader, enableWarnings := true } {} "cbuf"
        [{ targets := [ShaderTarget.VertexShader], slot := 3 }] BufferType.Buffer []).2.2.1
      (by decide)

/-- Claim C6: an identifier-valued assignment to an enumerated sampler
field maps a recognized identifier to the exact tabled enum value with no
warning, while an unrecognized identifier produces one non-fatal warning
naming the bad value (only when warnings are enabled) and leaves the field
at its prior value; the dispatch covers filter, all three address modes,
and the comparison function. -/
theorem C6_sampler_enum_fields (ctx : Ctx) (st : RState) (s : SamplerState) (v : String) :
    (∀ f0 f, stringToFilter v = some f →
        ReflectSamplerValueFilter ctx v f0 st = (f, st)) ∧
    (∀ f0, stringToFilter v = Option.none →
        ReflectSamplerValueFilter ctx v f0 st
          = (f0, Warning ctx st (R_InvalidFilterValue v))) ∧
    (∀ m0 m, stringToTexAddressMode v = some m →
        ReflectSamplerValueTextureAddressMode ctx v m0 st = (m, st)) ∧
    (∀ m0, stringToTexAddressMode v = Option.none →
        ReflectSamplerValueTextureAddressMode ctx v m0 st
          = (m0, Warning ctx st (R_InvalidTexAddressModeValue v))) ∧
    (∀ c0 c, stringToCompareFunc v = some c →
        ReflectSamplerValueComparisonFunc ctx v c0 st = (c, st)) ∧
    (∀ c0, stringToCompareFunc v = Option.none →
        ReflectSamplerValueComparisonFunc ctx v c0 st
          = (c0, Warning ctx st (R_InvalidCompareFuncValue v))) ∧
    (ReflectSamplerValue ctx { name := "Filter", value := Expr.ObjectExpr v } s st
      = ({ s with filter := (ReflectSamplerValueFilter ctx v s.filter st).1 },
         (ReflectSamplerValueFilter ctx v s.filter st).2)) ∧
    (ReflectSamplerValue ctx { name := "AddressU", value := Expr.ObjectExpr v } s st
      = ({ s with addressU := (ReflectSamplerValueTextureAddressMode ctx v s.addressU st).1 },
         (ReflectSamplerValueTextureAddressMode ctx v s.addressU st).2)) ∧
    (ReflectSamplerValue ctx { name := "AddressV", value := Expr.ObjectExpr v } s st
      = ({ s with addressV := (ReflectSamplerValueTextureAddressMode ctx v s.addressV st).1 },
         (ReflectSamplerValueTextureAddressMode ctx v s.addressV st).2)) ∧
    (ReflectSamplerValue ctx { name := "AddressW", value := Expr.ObjectExpr v } s st
      = ({ s with addressW := (ReflectSamplerValueTextureAddressMode ctx v s.addressW st).1 },
         (ReflectSamplerValueTextureAddressMode ctx v s.addressW st).2)) ∧
    (ReflectSamplerValue ctx { name := "ComparisonFunc", value := Expr.ObjectExpr v } s st
      = ({ s with comparisonFunc := (ReflectSamplerValueComparisonFunc ctx v s.comparisonFunc st).1 },
         (ReflectSamplerValueComparisonFunc ctx v s.comparisonFunc st).2)) ∧
    (ctx.enableWarnings = true → ∀ m, (Warning ctx st m).warnings = st.warnings ++ [m]) := by
  refine ⟨?_, ?_, ?_, ?_, ?_, ?_, rfl, rfl, rfl, rfl, rfl,
    fun h m => warning_on ctx st m h⟩
  · intro f0 f h
    unfold ReflectSamplerValueFilter
    rw [h]
  · intro f0 h
    unfold ReflectSamplerValueFilter
    rw [h]
  · intro m0 m h
    unfold ReflectSamplerValueTextureAddressMode
    rw [h]
  · intro m0 h
    unfold ReflectSamplerValueTextureAddressMode
    rw [h]
  · intro c0 c h
    unfold ReflectSamplerValueComparisonFunc
    rw [h]
  · intro c0 h
    unfold ReflectSamplerValueComparisonFunc
    rw [h]

/-- Witness for C6: a recognized filter string maps to its exact enum
value with no warning; an unrecognized one leaves the default and appends
exactly the warning naming it. -/
theorem C6_sampler_enum_fields_witness :
    ReflectSamplerValueFilter { shaderTarget := ShaderTarget.VertexShader, enableWarnings := true }
        "ANISOTROPIC" Filter.MinMagMipLinear {} = (Filter.Anisotropic, {}) ∧
    ReflectSamplerValueFilter { shaderTarget := ShaderTarget.VertexShader, enableWarnings := true }
        "BOGUS" Filter.MinMagMipLinear {}
      = (Filter.MinMagMipLinear,
         Warning { shaderTarget := ShaderTarget.VertexShader, enableWarnings := true } {}
           (R_InvalidFilterValue "BOGUS")) := by
  constructor
  · exact (C6_sampler_enum_fields
        { shaderTarget := ShaderTarget.VertexShader, enableWarnings := true } {} {}
        "ANISOTROPIC").1 Filter.MinMagMipLinear Filter.Anisotropic rfl
  · exact (C6_sampler_enum_fields
        { shaderTarget := ShaderTarget.VertexShader, enableWarnings := true } {} {}
        "BOGUS").2.1 Filter.MinMagMipLinear rfl

/-- The statement traversal never touches the attribute lists, so after
visiting both statement lists from a fresh state they are still empty. -/
theorem reflect_io_base (ctx : Ctx) (p : Program) :
    (visitStmnts ctx (visitStmnts ctx {} p.globalStmnts) p.disabledAST).data.inputAttributes
        = [] ∧
    (visitStmnts ctx (visitStmnts ctx {} p.globalStmnts) p.disabledAST).data.outputAttributes
        = [] := by
  have h2 := (visitStmnts_io ctx p.disabledAST (visitStmnts ctx {} p.globalStmnts)).trans
    (visitStmnts_io ctx p.globalStmnts {})
  exact ⟨congrArg Prod.fst h2, congrArg Prod.snd h2⟩

/-- Claim C7: with a resolved entry point, the input attributes are exactly
one name-index entry per ordinary input parameter (source identifier) and
per system-value input parameter (canonical system-value name), in that
order, and likewise for output attributes with the return semantic of the
entry point appended when it is a system value; with no entry point both
lists are left empty. -/
theorem C7_entryPoint_attributes (p : Program) (t : ShaderTarget) (w : Bool) :
    (p.entryPointRef = Option.none →
        (Reflect p t w).data.inputAttributes = [] ∧
        (Reflect p t w).data.outputAttributes = []) ∧
    (∀ ep, p.entryPointRef = some ep →
        (Reflect p t w).data.inputAttributes = entryPointInputs ep ∧
        (Reflect p t w).data.outputAttributes = entryPointOutputs ep) := by
  constructor
  · intro hp
    unfold Reflect VisitProgram
    dsimp only
    rw [hp]
    exact reflect_io_base { shaderTarget := t, enableWarnings := w } p
  · intro ep hp
    unfold Reflect VisitProgram
    dsimp only
    rw [hp]
    have hb := reflect_io_base { shaderTarget := t, enableWarnings := w } p
    constructor
    · show (visitStmnts { shaderTarget := t, enableWarnings := w }
          (visitStmnts { shaderTarget := t, enableWarnings := w } {} p.globalStmnts)
          p.disabledAST).data.inputAttributes ++ entryPointInputs ep = entryPointInputs ep
      rw [hb.1, List.nil_append]
    · show (visitStmnts { shaderTarget := t, enableWarnings := w }
          (visitStmnts { shaderTarget := t, enableWarnings := w } {} p.globalStmnts)
          p.disabledAST).data.outputAttributes ++ entryPointOutputs ep = entryPointOutputs ep
      rw [hb.2, List.nil_append]

/-- Witness for C7: a concrete entry point with one ordinary and one
system-value input and a system-value return semantic yields exactly those
attribute entries. -/
theorem C7_entryPoint_attributes_witness :
    (Reflect { globalStmnts := [], disabledAST := [],
               entryPointRef := some
                 { inputVarDeclRefs := [{ ident := "pos", semanticName := "POSITION",
                                          semanticIndex := 0 }],
                   inputVarDeclRefsSV := [{ ident := "vid", semanticName := "SV_VertexID",
                                            semanticIndex := 0 }],
                   outputVarDeclRefs := [],
                   outputVarDeclRefsSV := [],
                   semanticIsSystemValue := true,
                   semanticName := "SV_Position",
                   semanticIndex := 0 } }
        ShaderTarget.VertexShader true).data.inputAttributes
      = [("pos", 0), ("SV_VertexID", 0)] ∧
    (Reflect { globalStmnts := [], disabledAST := [],
               entryPointRef := some
                 { inputVarDeclRefs := [{ ident := "pos", semanticName := "POSITION",
                                          semanticIndex := 0 }],
                   inputVarDeclRefsSV := [{ ident := "vid", semanticName := "SV_VertexID",
                                            semanticIndex := 0 }],
                   outputVarDeclRefs := [],
                   outputVarDeclRefsSV := [],
                   semanticIsSystemValue := true,
                   semanticName := "SV_Position",
                   semanticIndex := 0 } }
        ShaderTarget.VertexShader true).data.outputAttributes
      = [("SV_Position", 0)] := by
  have h := (C7_entryPoint_attributes
      { globalStmnts := [], disabledAST := [],
        entryPointRef := some
          { inputVarDeclRefs := [{ ident := "pos", semanticName := "POSITION",
                                   semanticIndex := 0 }],
            inputVarDeclRefsSV := [{ ident := "vid", semanticName := "SV_VertexID",
                                     semanticIndex := 0 }],
            outputVarDeclRefs := [],
            outputVarDeclRefsSV := [],
            semanticIsSystemValue := true,
            semanticName := "SV_Position",
            semanticIndex := 0 } }
      ShaderTarget.VertexShader true).2 _ rfl
  exact ⟨h.1, h.2⟩

/-- Claim C10: every visited sampler declaration stores exactly one entry
under its declared name — the state folded from its value list, which is
all defaults for an empty list — and a later sampler declaration with the
same name overwrites the entry of an earlier one; across a whole reflection
run every name holds at most one entry. -/
theorem C10_samplerStates_entry (ctx : Ctx) (st : RState) (r : Bool) (ident : String)
    (vals : List SamplerValue) :
    (mapLookup (visitStmnt ctx st (Decl.SamplerDecl r ident vals)).data.samplerStates ident
        = some (ReflectSamplerValues ctx vals {} st).1) ∧
    ((∀ k, countKey st.data.samplerStates k ≤ 1) →
        countKey (visitStmnt ctx st (Decl.SamplerDecl r ident vals)).data.samplerStates ident
          = 1) ∧
    (mapLookup (visitStmnt ctx st (Decl.SamplerDecl r ident [])).data.samplerStates ident
        = some {}) ∧
    (∀ (r2 : Bool) (vals2 : List SamplerValue),
        mapLookup (visitStmnt ctx (visitStmnt ctx st (Decl.SamplerDecl r ident vals))
            (Decl.SamplerDecl r2 ident vals2)).data.samplerStates ident
          = some (ReflectSamplerValues ctx vals2 {}
              (visitStmnt ctx st (Decl.SamplerDecl r ident vals))).1) ∧
    (∀ (p : Program) (t : ShaderTarget) (w : Bool) (k : String),
        countKey (Reflect p t w).data.samplerStates k ≤ 1) := by
  refine ⟨?_, ?_, ?_, ?_, ?_⟩
  · exact mapLookup_insert _ ident _
  · intro h
    show countKey
      (mapInsert (ReflectSamplerValues ctx vals {} st).2.data.samplerStates ident
        (ReflectSamplerValues ctx vals {} st).1) ident = 1
    rw [reflectSamplerValues_data ctx vals]
    exact countKey_insert_eq _ _ _ (h ident)
  · exact mapLookup_insert _ ident _
  · intro r2 vals2
    exact mapLookup_insert _ ident _
  · intro p t w k
    unfold Reflect VisitProgram
    dsimp only
    cases hp : p.entryPointRef with
    | none =>
        exact visitStmnts_count_le _ p.disabledAST _
          (visitStmnts_count_le _ p.globalStmnts {} (fun _ => Nat.zero_le 1)) k
    | some ep =>
        show countKey (visitStmnts { shaderTarget := t, enableWarnings := w }
          (visitStmnts { shaderTarget := t, enableWarnings := w } {} p.globalStmnts)
          p.disabledAST).data.samplerStates k ≤ 1
        exact visitStmnts_count_le _ p.disabledAST _
          (visitStmnts_count_le _ p.globalStmnts {} (fun _ => Nat.zero_le 1)) k

/-- Witness for C10: visiting a sampler declaration with an empty value
list from a fresh state stores exactly one entry under its name. -/
theorem C10_samplerStates_entry_witness :
    countKey (visitStmnt { shaderTarget := ShaderTarget.VertexShader, enableWarnings := true }
        {} (Decl.SamplerDecl true "samp" [])).data.samplerStates "samp" = 1 :=
  (C10_samplerStates_entry
      { shaderTarget := ShaderTarget.VertexShader, enableWarnings := true } {} true "samp"
      []).2.1 (fun _ => Nat.zero_le 1)

end Xsc
